import Mathlib

/-!
Verification of the request-construction and signing engine of
`instagram/oauth2.py` (classes `OAuth2Request`, `OAuth2AuthExchangeRequest`).

The Python code is embedded shallowly.  The library is a Python-2 code base
(its multipart encoder joins raw byte strings, its signer splices the UTF-8
encoding of unicode values into a byte string), so Python-2 `str` values are
modelled as byte sequences `List Nat` (each entry `< 256`), `unicode` values
as Lean `String`, and `str.encode()` (the implicit-ascii codec) as a partial
operation.  Dictionaries are association lists in insertion order, which is
the dict iteration order of Python.  `None`-able attributes are `Option`s, and
Python string formatting of a possibly-`None` value renders `none` as the
literal text `"None"`.
-/

set_option maxRecDepth 100000

/-- Python 2 `str`: a byte string. -/
abbrev Str := List Nat

/-- UTF-8 encoding of one unicode code point (as the CPython utf-8 codec). -/
def utf8Char (c : Char) : List Nat :=
  let n := c.toNat
  if n < 0x80 then [n]
  else if n < 0x800 then [0xc0 + n / 64, 0x80 + n % 64]
  else if n < 0x10000 then [0xe0 + n / 4096, 0x80 + (n / 64) % 64, 0x80 + n % 64]
  else [0xf0 + n / 262144, 0x80 + (n / 4096) % 64, 0x80 + (n / 64) % 64, 0x80 + n % 64]

/-- Byte string of a Lean string literal (UTF-8; equals the ASCII bytes for
ASCII literals, which is what the Python 2 source literals are). -/
def pyb (s : String) : Str := s.data.flatMap utf8Char

/-- Python 2 unicode-to-utf-8 encoding (`encode` with the utf-8 codec). -/
def utf8Str (s : String) : Str := pyb s

/-- Python 2 `str.encode()` with no codec argument: the bytes are first
decoded with the implicit ascii codec, so the call is the identity on pure
ASCII byte strings and raises `UnicodeDecodeError` otherwise. -/
def pyStrEncode (s : Str) : Option Str :=
  if s.all (· < 128) then some s else none

/-- Lowercase hex character of a value `< 16` (as `hexdigest` uses). -/
def hexCh (n : Nat) : Nat := if n < 10 then 48 + n else 87 + n

/-- Lowercase hexadecimal rendering of a byte string (`hexdigest`). -/
def hexDigest (bs : List Nat) : Str :=
  bs.flatMap (fun b => [hexCh (b / 16), hexCh (b % 16)])

/-! ### SHA-256 (FIPS 180-4), bit-exact model of `hashlib.sha256` -/

def add32 (a b : Nat) : Nat := (a + b) % 4294967296

def rotr32 (n x : Nat) : Nat := ((x >>> n) ||| (x <<< (32 - n))) % 4294967296

def shaCh (x y z : Nat) : Nat := (x &&& y) ^^^ ((x ^^^ 4294967295) &&& z)

def shaMaj (x y z : Nat) : Nat := (x &&& y) ^^^ (x &&& z) ^^^ (y &&& z)

def bigSigma0 (x : Nat) : Nat := rotr32 2 x ^^^ rotr32 13 x ^^^ rotr32 22 x

def bigSigma1 (x : Nat) : Nat := rotr32 6 x ^^^ rotr32 11 x ^^^ rotr32 25 x

def smallSigma0 (x : Nat) : Nat := rotr32 7 x ^^^ rotr32 18 x ^^^ (x >>> 3)

def smallSigma1 (x : Nat) : Nat := rotr32 17 x ^^^ rotr32 19 x ^^^ (x >>> 10)

def shaK : List Nat :=
  [1116352408, 1899447441, 3049323471, 3921009573, 961987163,
   1508970993, 2453635748, 2870763221, 3624381080, 310598401,
   607225278, 1426881987, 1925078388, 2162078206, 2614888103,
   3248222580, 3835390401, 4022224774, 264347078, 604807628,
   770255983, 1249150122, 1555081692, 1996064986, 2554220882,
   2821834349, 2952996808, 3210313671, 3336571891, 3584528711,
   113926993, 338241895, 666307205, 773529912, 1294757372,
   1396182291, 1695183700, 1986661051, 2177026350, 2456956037,
   2730485921, 2820302411, 3259730800, 3345764771, 3516065817,
   3600352804, 4094571909, 275423344, 430227734, 506948616,
   659060556, 883997877, 958139571, 1322822218, 1537002063,
   1747873779, 1955562222, 2024104815, 2227730452, 2361852424,
   2428436474, 2756734187, 3204031479, 3329325298]

def shaH0 : List Nat :=
  [1779033703, 3144134277, 1013904242, 2773480762,
   1359893119, 2600822924, 528734635, 1541459225]

/-- The next message-schedule word, from the words produced so far. -/
def nextW (w : List Nat) : Nat :=
  let t := w.length
  add32 (add32 (smallSigma1 (w.getD (t - 2) 0)) (w.getD (t - 7) 0))
        (add32 (smallSigma0 (w.getD (t - 15) 0)) (w.getD (t - 16) 0))

/-- Extend a 16-word block to the 64-word message schedule. -/
def buildW (w16 : List Nat) : List Nat :=
  (List.range 48).foldl (fun w _ => w ++ [nextW w]) w16

/-- One SHA-256 round on the 8-word working state. -/
def shaRound (st : List Nat) (kw : Nat) : List Nat :=
  match st with
  | [a, b, c, d, e, f, g, h] =>
      let t1 := add32 h (add32 (bigSigma1 e) (add32 (shaCh e f g) kw))
      let t2 := add32 (bigSigma0 a) (shaMaj a b c)
      [add32 t1 t2, a, b, c, add32 d t1, e, f, g]
  | st => st

/-- Compress one 16-word block into the hash state. -/
def shaCompress (h : List Nat) (w16 : List Nat) : List Nat :=
  let kw := List.zipWith add32 shaK (buildW w16)
  List.zipWith add32 h (kw.foldl shaRound h)

/-- Big-endian 64-bit rendering of a number, as 8 bytes. -/
def be64 (n : Nat) : List Nat :=
  (List.range 8).map (fun i => (n >>> (56 - 8 * i)) % 256)

/-- SHA-256 padding: `0x80`, zeros to 56 mod 64, then the 64-bit bit length. -/
def shaPad (msg : List Nat) : List Nat :=
  let z := (119 - msg.length % 64) % 64
  msg ++ [128] ++ List.replicate z 0 ++ be64 (8 * msg.length)

/-- Split a byte string into 64-byte chunks (structural, fuelled recursion). -/
def chunksAux : Nat → List Nat → List (List Nat)
  | 0, _ => []
  | _, [] => []
  | fuel + 1, l => l.take 64 :: chunksAux fuel (l.drop 64)

def chunks64 (l : List Nat) : List (List Nat) := chunksAux l.length l

/-- Big-endian 32-bit word from the first four bytes of a list. -/
def word32 (l : List Nat) : Nat :=
  l.getD 0 0 * 16777216 + l.getD 1 0 * 65536 + l.getD 2 0 * 256 + l.getD 3 0

/-- The sixteen 32-bit words of a 64-byte block. -/
def words16 (block : List Nat) : List Nat :=
  (List.range 16).map (fun i => word32 (block.drop (4 * i)))

/-- SHA-256 of a byte string, as its 32-byte digest. -/
def sha256 (msg : List Nat) : List Nat :=
  let hFinal := (chunks64 (shaPad msg)).foldl (fun h b => shaCompress h (words16 b)) shaH0
  hFinal.flatMap (fun w => [(w >>> 24) % 256, (w >>> 16) % 256, (w >>> 8) % 256, w % 256])

/-- HMAC-SHA256 (RFC 2104), bit-exact model of `hmac.new(key, msg, sha256)`. -/
def hmacSha256 (key msg : List Nat) : List Nat :=
  let k0 := if 64 < key.length then sha256 key else key
  let k := k0 ++ List.replicate (64 - k0.length) 0
  sha256 (k.map (Nat.xor 0x5c) ++ sha256 (k.map (Nat.xor 0x36) ++ msg))

/-! ### Parameter values and dictionaries -/

/-- A value in a parameter dict: a Python 2 `unicode` (text), a Python 2
`str` (bytes), or the nested files dict `{field: (file_name, content)}`
that `prepare_request` looks up under the reserved key `"files"`. -/
inductive PVal where
  | text (s : String)
  | bstr (b : Str)
  | fdict (d : List (Str × Str × Str))
deriving DecidableEq

/-- The files mapping: field name, file name, file content bytes. -/
abbrev FDict := List (Str × Str × Str)

/-- A parameter dict, in insertion order (Python dict iteration order). -/
abbrev Params := List (Str × PVal)

/-- `d[k] = v`: replace in place if the key exists, else append. -/
def dictSet : Params → Str → PVal → Params
  | [], k, v => [(k, v)]
  | (k', v') :: rest, k, v =>
      if k' = k then (k, v) :: rest else (k', v') :: dictSet rest k v

/-- `d.get(k)` / `d[k]` lookup. -/
def dictLookup : Params → Str → Option PVal
  | [], _ => none
  | (k', v) :: rest, k => if k' = k then some v else dictLookup rest k

/-- Python truthiness of a parameter value. -/
def pvTruthy : PVal → Bool
  | .text s => !s.isEmpty
  | .bstr b => !b.isEmpty
  | .fdict d => !d.isEmpty

/-- Python truthiness of a `None`-able string attribute. -/
def optTruthy : Option Str → Bool
  | none => false
  | some s => !s.isEmpty

/-- Python `str` formatting of a possibly-`None` value (`format` of the value):
`None` renders as the literal text `"None"`. -/
def pyFmtOptStr : Option Str → Str
  | none => pyb "None"
  | some s => s

/-- `"sep".join(lines)` on byte strings. -/
def pyJoin (sep : Str) : List Str → Str
  | [] => []
  | [x] => x
  | x :: xs => x ++ sep ++ pyJoin sep xs

/-- Python 2 `str()` of a parameter value: identity on byte strings,
the implicit-ascii encoding of `unicode` (raises on non-ASCII, hence
partial), and `repr` on a files dict.  The `repr` of a dict holding open
file objects is environment-dependent, so it is a parameter `reprF` that
all theorems quantify over. -/
def pvStr (reprF : FDict → Str) : PVal → Option Str
  | .bstr b => some b
  | .text s => if s.data.all (fun c => c.toNat < 128) then some (pyb s) else none
  | .fdict d => some (reprF d)

/-! ### `urlencode` (Python 2 `urllib.urlencode` with `quote_plus`) -/

/-- Bytes `quote_plus` leaves unescaped: letters, digits, `_`, `.`, `-`. -/
def safeByte (b : Nat) : Bool :=
  (65 ≤ b && b ≤ 90) || (97 ≤ b && b ≤ 122) || (48 ≤ b && b ≤ 57) ||
    b = 95 || b = 46 || b = 45

/-- Uppercase hex character of a value `< 16` (percent escapes). -/
def hexUp (n : Nat) : Nat := if n < 10 then 48 + n else 55 + n

/-- `quote_plus` on one byte: safe bytes kept, space to `+`, else `%XX`. -/
def quoteByte (b : Nat) : Str :=
  if safeByte b then [b]
  else if b = 32 then [43]
  else [37, hexUp (b / 16), hexUp (b % 16)]

/-- `quote_plus` on a byte string. -/
def quotePlus (s : Str) : Str := s.flatMap quoteByte

/-- The `"k=v"` segments of `urlencode(params)`, each via `quote_plus(str(.))`. -/
def urlencodePairs (reprF : FDict → Str) : Params → Option (List Str)
  | [] => some []
  | (k, v) :: rest =>
      match pvStr reprF v, urlencodePairs reprF rest with
      | some vs, some tl => some ((quotePlus k ++ pyb "=" ++ quotePlus vs) :: tl)
      | _, _ => none

/-- `urllib.urlencode(params)`: `&`-joined `k=v` pairs in dict order. -/
def urlencode (reprF : FDict → Str) (params : Params) : Option Str :=
  (urlencodePairs reprF params).map (pyJoin (pyb "&"))

/-! ### The Signer: `OAuth2Request._generate_sig` -/

/-- The value bytes a parameter contributes to the signing base string:
`enc_if_str` encodes text as UTF-8, byte strings are spliced unchanged by
the format call, and a non-string value is rendered via `str()`. -/
def segVal (reprF : FDict → Str) : PVal → Str
  | .text s => utf8Str s
  | .bstr b => b
  | .fdict d => reprF d

/-- `sorted(params.keys())`: the stable ascending Python sort under the
byte-wise lexicographic order on Python 2 strings. -/
def pySortedKeys (params : Params) : List Str :=
  List.insertionSort (· ≤ ·) (params.map Prod.fst)

/-- The signing base string: the endpoint path followed by `"|{key}={val}"`
for each key in sorted order (the local `sig` of `_generate_sig`). -/
def sigBaseString (reprF : FDict → Str) (endpoint : Str) (params : Params) : Str :=
  endpoint ++ (pySortedKeys params).flatMap
    (fun k => pyb "|" ++ k ++ pyb "=" ++ segVal reprF ((dictLookup params k).getD (PVal.bstr [])))

/-- `OAuth2Request._generate_sig`: HMAC-SHA256 of the base string keyed by
the secret, as a lowercase hex digest.  `.encode()` on the Python 2 byte
strings is the partial implicit-ascii codec. -/
def generate_sig (reprF : FDict → Str) (endpoint : Str) (params : Params) (secret : Str) :
    Option Str :=
  match pyStrEncode secret, pyStrEncode (sigBaseString reprF endpoint params) with
  | some key, some msg => some (hexDigest (hmacSha256 key msg))
  | _, _ => none

/-! ### The RequestBuilder: `OAuth2API` configuration and `OAuth2Request` -/

/-- The `OAuth2API` configuration and credential state read by
`OAuth2Request` (class defaults as field defaults). -/
structure Api where
  host : Str
  basePath : Str
  accessTokenField : Str := pyb "access_token"
  protocol : Str := pyb "https"
  clientId : Option Str := none
  clientSecret : Option Str := none
  accessToken : Option Str := none
deriving DecidableEq

/-- `OAuth2Request._auth_query`: the auth query, or Python `None` when
neither an access token nor a client id is truthy (the function falls off
its `elif` chain). -/
def auth_query (api : Api) (includeSecret : Bool) : Option Str :=
  if optTruthy api.accessToken then
    some (pyb "?" ++ api.accessTokenField ++ pyb "=" ++ (api.accessToken.getD []))
  else if optTruthy api.clientId then
    some (pyb "?client_id=" ++ (api.clientId.getD []) ++
      (if includeSecret then pyb "&client_secret=" ++ pyFmtOptStr api.clientSecret else []))
  else none

/-- `OAuth2Request._signed_request`: when a signing pass is requested and a
client secret is configured (`is not None`), the credential entries are
assigned into the very dict that was passed in; the mutated dict is
returned alongside the `"&sig={digest}"` string.  Otherwise the dict is
untouched and the suffix is empty. -/
def signed_request (reprF : FDict → Str) (api : Api) (path : Str) (params : Params)
    (includeSignedRequest includeSecret : Bool) : Option (Str × Params) :=
  match includeSignedRequest, api.clientSecret with
  | true, some sec =>
      let p1 :=
        if optTruthy api.accessToken then
          dictSet params (pyb "access_token") (.bstr (api.accessToken.getD []))
        else if optTruthy api.clientId then
          dictSet params (pyb "client_id") (.bstr (api.clientId.getD []))
        else params
      let p2 :=
        if includeSecret && !sec.isEmpty then
          dictSet p1 (pyb "client_secret") (.bstr sec)
        else p1
      (generate_sig reprF path p2 sec).map (fun d => (pyb "&sig=" ++ d, p2))
  | _, _ => some ([], params)

/-- `OAuth2Request._full_url`: base URL with the auth query (a `None` auth
query renders as the text `"None"`) and the signed-request suffix computed
over a fresh empty dict. -/
def full_url (reprF : FDict → Str) (api : Api) (path : Str)
    (includeSecret includeSignedRequest : Bool) : Option Str :=
  (signed_request reprF api path [] includeSignedRequest includeSecret).map
    (fun sp =>
      api.protocol ++ pyb "://" ++ api.host ++ api.basePath ++ path ++
        pyFmtOptStr (auth_query api includeSecret) ++ sp.1)

/-- `OAuth2Request._full_query_with_params`: empty for a falsy dict, else
`"&" + urlencode(params)`. -/
def full_query_with_params (reprF : FDict → Str) (params : Params) : Option Str :=
  if params.isEmpty then some []
  else (urlencode reprF params).map (fun q => pyb "&" ++ q)

/-- `OAuth2Request._full_url_with_params`: its first statement runs the
signing pass (mutating `params`), then `_full_url` (which appends its own
signed suffix over a fresh empty dict) and the extra-params query — over
the already mutated dict — are concatenated, with the outer signed suffix
last.  Returns the URL together with the caller-visible mutated dict. -/
def full_url_with_params (reprF : FDict → Str) (api : Api) (path : Str) (params : Params)
    (includeSecret : Bool) : Option (Str × Params) :=
  match signed_request reprF api path params true includeSecret with
  | none => none
  | some (signed, params') =>
      match full_url reprF api path includeSecret true,
            full_query_with_params reprF params' with
      | some base, some query => some (base ++ query ++ signed, params')
      | _, _ => none

/-- `OAuth2Request._post_body`: `urlencode(params)`. -/
def post_body (reprF : FDict → Str) (params : Params) : Option Str :=
  urlencode reprF params

/-! ### The Encoder: `OAuth2Request._encode_multipart` -/

/-- The fixed multipart boundary literal. -/
def boundary : Str := pyb "MuL7Ip4rt80uND4rYF0o"

/-- The four lines `encode_field` emits for each text field, concatenated
over the dict in iteration order (the part value is `str(params[field])`). -/
def encodeFieldLines (reprF : FDict → Str) : Params → Option (List Str)
  | [] => some []
  | (k, v) :: rest =>
      match pvStr reprF v, encodeFieldLines reprF rest with
      | some vs, some tl =>
          some ([pyb "--" ++ boundary,
                 pyb "Content-Disposition: form-data; name=\"" ++ k ++ pyb "\"",
                 [], vs] ++ tl)
      | _, _ => none

/-- The five lines `encode_file` emits for each file field; the content
type comes from `mimetypes.guess_type` with fallback
`application/octet-stream`, modelled as the parameter `gt`. -/
def encodeFileLines (gt : Str → Str) : FDict → List Str
  | [] => []
  | (k, fn, content) :: rest =>
      [pyb "--" ++ boundary,
       pyb "Content-Disposition: form-data; name=\"" ++ k ++ pyb "\"; filename=\"" ++
         fn ++ pyb "\"",
       pyb "Content-Type: " ++ gt fn,
       [], content] ++ encodeFileLines gt rest

/-- `str(n)` for a length. -/
def natStr (n : Nat) : Str := pyb (toString n)

/-- `OAuth2Request._encode_multipart`: field lines, file lines, the closing
boundary and a trailing empty line, joined with CRLF; headers carry the
boundary and `Content-Length` as `str(len(body))`. -/
def encode_multipart (reprF : FDict → Str) (gt : Str → Str) (params : Params)
    (files : FDict) : Option (Str × List (Str × Str)) :=
  match encodeFieldLines reprF params with
  | none => none
  | some fl =>
      let body := pyJoin (pyb "\r\n")
        (fl ++ encodeFileLines gt files ++ [pyb "--" ++ boundary ++ pyb "--", []])
      some (body,
        [(pyb "Content-Type", pyb "multipart/form-data; boundary=" ++ boundary),
         (pyb "Content-Length", natStr body.length)])

/-! ### `OAuth2Request.prepare_request` -/

/-- The `(url, method, body, headers)` tuple `prepare_request` returns,
together with the caller parameter dict as it stands after the call
(the dict object is shared, so mutation is caller-visible). -/
structure PrepResult where
  url : Str
  method : Str
  body : Option Str
  headers : List (Str × Str)
  paramsAfter : Params
deriving DecidableEq

/-- Truthiness of the files entry looked up by `params.get`. -/
def paramsFilesTruthy (params : Params) : Bool :=
  match dictLookup params (pyb "files") with
  | some v => pvTruthy v
  | none => false

/-- `OAuth2Request.prepare_request`.  Non-multipart: for POST the body is
urlencoded from the dict as it stands before the signing pass, then the
URL (and the dict mutation) come from `_full_url_with_params`.  Multipart:
body and headers from `_encode_multipart`, URL from `_full_url` with its
default arguments.  A truthy non-dict under `"files"` raises (`TypeError`
when `_encode_multipart` indexes it), modelled as `none`. -/
def prepare_request (reprF : FDict → Str) (gt : Str → Str) (api : Api) (method : Str)
    (path : Str) (params : Params) (includeSecret : Bool) : Option PrepResult :=
  if paramsFilesTruthy params = false then
    let bh : Option (Option Str × List (Str × Str)) :=
      if method = pyb "POST" then
        (post_body reprF params).map
          (fun b => (some b, [(pyb "Content-Type", pyb "application/x-www-form-urlencoded")]))
      else some (none, [])
    match bh with
    | none => none
    | some (body, headers) =>
        (full_url_with_params reprF api path params includeSecret).map
          (fun up => ⟨up.1, method, body, headers, up.2⟩)
  else
    match dictLookup params (pyb "files") with
    | some (.fdict fs) =>
        match encode_multipart reprF gt params fs with
        | none => none
        | some (body, headers) =>
            (full_url reprF api path false true).map
              (fun url => ⟨url, method, some body, headers, params⟩)
    | _ => none

/-! ### The AuthExchange response handling:
`OAuth2AuthExchangeRequest.exchange_for_access_token` -/

/-- The exceptions the token-exchange response handling can raise. -/
inductive PyExc where
  | authExchangeError (description : Str)
  | jsonDecodeError
  | keyError (key : Str)
deriving DecidableEq

/-- Lookup in a string-valued dict (parsed JSON objects, header dicts). -/
def sLookup : List (Str × Str) → Str → Option Str
  | [], _ => none
  | (k', v) :: rest, k => if k' = k then some v else sLookup rest k

/-- The response-interpretation tail of `exchange_for_access_token`, after
the transport call: `simplejson.loads` runs first and raises a decode
error on an unparseable body (`parsed = none`); a non-200 status raises
`OAuth2AuthExchangeError` with the `error_message` field of the body (default empty);
otherwise the `access_token` and `user` fields are indexed, raising
`KeyError` when absent. -/
def exchange_for_access_token (status : Nat) (parsed : Option (List (Str × Str))) :
    Except PyExc (Str × Str) :=
  match parsed with
  | none => .error .jsonDecodeError
  | some obj =>
      if status ≠ 200 then
        .error (.authExchangeError ((sLookup obj (pyb "error_message")).getD []))
      else
        match sLookup obj (pyb "access_token") with
        | none => .error (.keyError (pyb "access_token"))
        | some tok =>
            match sLookup obj (pyb "user") with
            | none => .error (.keyError (pyb "user"))
            | some user => .ok (tok, user)

/-! ### Concrete instantiations used by example and witness theorems -/

/-- A fixed (irrelevant) model of the dict `repr`. -/
def reprNil : FDict → Str := fun _ => []

/-- A fixed model of `mimetypes.guess_type` that always falls back. -/
def gtOctet : Str → Str := fun _ => pyb "application/octet-stream"

/-- A configuration with an access token and a client secret, so request
signing is enabled. -/
def apiTS : Api :=
  { host := pyb "api.example.com"
    basePath := pyb "/v1"
    clientSecret := some (pyb "S")
    accessToken := some (pyb "T") }

/-- A configuration with an access token and no client secret, so request
signing is disabled. -/
def apiTok : Api :=
  { host := pyb "api.example.com"
    basePath := pyb "/v1"
    accessToken := some (pyb "T") }

/-- A configuration with a client id and a client secret but no access
token, so signing injects the client id (and the secret when
`include_secret` is requested). -/
def apiCS : Api :=
  { host := pyb "api.example.com"
    basePath := pyb "/v1"
    clientId := some (pyb "CID")
    clientSecret := some (pyb "S") }

/-- Concrete multipart input: one text field and one file field. -/
def mpParams : Params := [(pyb "caption", PVal.bstr (pyb "hi"))]

/-- Concrete file field for the multipart input. -/
def mpFiles : FDict := [(pyb "photo", pyb "a.jpg", pyb "XYZ")]

/-- The body `_encode_multipart` assembles for `mpParams` and `mpFiles`. -/
def mpBody : Str :=
  pyb "--MuL7Ip4rt80uND4rYF0o\r\nContent-Disposition: form-data; name=\"caption\"\r\n\r\nhi\r\n--MuL7Ip4rt80uND4rYF0o\r\nContent-Disposition: form-data; name=\"photo\"; filename=\"a.jpg\"\r\nContent-Type: application/octet-stream\r\n\r\nXYZ\r\n--MuL7Ip4rt80uND4rYF0o--\r\n"

/-- The headers `_encode_multipart` returns for `mpParams` and `mpFiles`. -/
def mpHeaders : List (Str × Str) :=
  [(pyb "Content-Type", pyb "multipart/form-data; boundary=MuL7Ip4rt80uND4rYF0o"),
   (pyb "Content-Length", pyb "239")]

/-! ### General lemmas about the embedding -/

/-- FIPS 180-4 test vector: SHA-256 of the three bytes "abc". -/
theorem sha256_known_vector :
    hexDigest (sha256 (pyb "abc")) =
      pyb "ba7816bf8f01cfea414140de5dae2223b00361a396177a9cb410ff61f20015ad" := by
  decide

/-- Known test vector for the HMAC-SHA256 construction. -/
theorem hmacSha256_known_vector :
    hexDigest (hmacSha256 (pyb "key") (pyb "The quick brown fox jumps over the lazy dog")) =
      pyb "f7bc83f430538424b13298e6aa6fb143ef4d59a14946175997479dbc2d1a3cd8" := by
  decide

/-- Unfolding a join at a cons cell with a nonempty tail. -/
theorem pyJoin_cons (sep x : Str) (w : List Str) (h : w ≠ []) :
    pyJoin sep (x :: w) = x ++ sep ++ pyJoin sep w := by
  cases w with
  | nil => exact absurd rfl h
  | cons a as => rfl

/-- A join ends with its last two elements around one separator. -/
theorem pyJoin_last_two (sep x y : Str) :
    ∀ l : List Str, List.IsSuffix (x ++ sep ++ y) (pyJoin sep (l ++ [x, y])) := by
  intro l
  induction l with
  | nil => exact ⟨[], by simp [pyJoin, List.append_assoc]⟩
  | cons z l ih =>
      rw [List.cons_append, pyJoin_cons sep z (l ++ [x, y]) (by simp)]
      obtain ⟨r, hr⟩ := ih
      exact ⟨z ++ sep ++ r, by rw [← hr]; simp [List.append_assoc]⟩

/-- When a signing pass succeeds with a configured secret, the dict that
`_signed_request` hands back is the input dict with the credential entries
assigned into it: `access_token` when the token is truthy, else
`client_id` when the client id is truthy, plus `client_secret` when
`include_secret` is requested and the secret is truthy. -/
theorem signed_request_some_snd (reprF : FDict → Str) (api : Api) (path : Str)
    (params : Params) (inclSecret : Bool) (sec : Str) (sp : Str × Params)
    (hsec : api.clientSecret = some sec)
    (h : signed_request reprF api path params true inclSecret = some sp) :
    sp.2 = (if inclSecret && !sec.isEmpty then
              dictSet (if optTruthy api.accessToken then
                  dictSet params (pyb "access_token") (PVal.bstr (api.accessToken.getD []))
                else if optTruthy api.clientId then
                  dictSet params (pyb "client_id") (PVal.bstr (api.clientId.getD []))
                else params) (pyb "client_secret") (PVal.bstr sec)
            else if optTruthy api.accessToken then
              dictSet params (pyb "access_token") (PVal.bstr (api.accessToken.getD []))
            else if optTruthy api.clientId then
              dictSet params (pyb "client_id") (PVal.bstr (api.clientId.getD []))
            else params) := by
  simp only [signed_request, hsec] at h
  rw [Option.map_eq_some'] at h
  obtain ⟨d, hd, hsp⟩ := h
  rw [← hsp]

/-- The mutated dict of `signed_request_some_snd` is exactly the dict
component `_full_url_with_params` returns to its caller. -/
theorem full_url_with_params_snd (reprF : FDict → Str) (api : Api) (path : Str)
    (params : Params) (inclSecret : Bool) (sec : Str) (up : Str × Params)
    (hsec : api.clientSecret = some sec)
    (h : full_url_with_params reprF api path params inclSecret = some up) :
    up.2 = (if inclSecret && !sec.isEmpty then
              dictSet (if optTruthy api.accessToken then
                  dictSet params (pyb "access_token") (PVal.bstr (api.accessToken.getD []))
                else if optTruthy api.clientId then
                  dictSet params (pyb "client_id") (PVal.bstr (api.clientId.getD []))
                else params) (pyb "client_secret") (PVal.bstr sec)
            else if optTruthy api.accessToken then
              dictSet params (pyb "access_token") (PVal.bstr (api.accessToken.getD []))
            else if optTruthy api.clientId then
              dictSet params (pyb "client_id") (PVal.bstr (api.clientId.getD []))
            else params) := by
  cases hsr : signed_request reprF api path params true inclSecret with
  | none => simp [full_url_with_params, hsr] at h
  | some sp =>
      obtain ⟨signed, params'⟩ := sp
      have h2 := signed_request_some_snd reprF api path params inclSecret sec
        (signed, params') hsec hsr
      cases hfu : full_url reprF api path inclSecret true with
      | none => simp [full_url_with_params, hsr, hfu] at h
      | some base =>
          cases hq : full_query_with_params reprF params' with
          | none => simp [full_url_with_params, hsr, hfu, hq] at h
          | some q =>
              simp only [full_url_with_params, hsr, hfu, hq, Option.some.injEq] at h
              rw [← h]
              exact h2

/-! ### The claims -/

/-- C1: the digest for endpoint `/users/1/media`, params `{access_token: AA}`
and secret `secret` is the HMAC-SHA256 lowercase-hex digest of the base
string `/users/1/media|access_token=AA` keyed by `secret`; in general the
base string is the endpoint followed by one `|key=value` segment per key in
byte-wise ascending sorted order, text values contributing their UTF-8
serialization (and non-text values their string form). -/
theorem C1_signer_base_string :
    (∀ reprF : FDict → Str,
      generate_sig reprF (pyb "/users/1/media") [(pyb "access_token", PVal.text "AA")]
          (pyb "secret") =
        some (hexDigest (hmacSha256 (pyb "secret") (pyb "/users/1/media|access_token=AA"))))
  ∧ ∀ (reprF : FDict → Str) (endpoint : Str) (params : Params),
      ∃ ks : List Str, ks.Perm (params.map Prod.fst) ∧ ks.Sorted (· ≤ ·) ∧
        sigBaseString reprF endpoint params =
          endpoint ++ ks.flatMap (fun k => pyb "|" ++ k ++ pyb "=" ++
            segVal reprF ((dictLookup params k).getD (PVal.bstr []))) := by
  constructor
  · intro reprF
    rfl
  · intro reprF endpoint params
    exact ⟨pySortedKeys params, List.perm_insertionSort _ _,
      List.sorted_insertionSort _ _, rfl⟩

/-- C2: contrary to the claimed single trailing `&sig=` suffix, a signed
non-multipart URL carries two `&sig=` segments: `_full_url_with_params`
calls `_full_url` with `include_signed_request` defaulted to true, so an
inner signature over only the injected credentials lands between the auth
query and the extra parameters, and the outer signature comes last.  The
extra-parameters query is also rendered from the already mutated dict, so
the access token appears in it again. -/
theorem C2_double_signature_at_failing_input :
    (prepare_request reprNil gtOctet apiTS (pyb "GET") (pyb "/x")
        [(pyb "a", PVal.bstr (pyb "1"))] false).map (fun r => r.url) =
      some (pyb "https://api.example.com/v1/x?access_token=T" ++ pyb "&sig=" ++
        hexDigest (hmacSha256 (pyb "S") (pyb "/x|access_token=T")) ++
        pyb "&a=1&access_token=T" ++ pyb "&sig=" ++
        hexDigest (hmacSha256 (pyb "S") (pyb "/x|a=1|access_token=T"))) := by
  decide

/-- C3 counterexample: after a signed GET `prepare_request`, the caller
dict is no longer the original one-entry dict — the access token has been
assigned into it. -/
theorem C3_counterexample_params_mutated :
    (prepare_request reprNil gtOctet apiTS (pyb "GET") (pyb "/x")
        [(pyb "a", PVal.bstr (pyb "1"))] false).map (fun r => r.paramsAfter) ≠
      some [(pyb "a", PVal.bstr (pyb "1"))] := by
  decide

/-- C3 (amended): for every non-multipart request with signing enabled
and for every method, the caller dict visible after `prepare_request` is
the original dict with the credential entries assigned into it:
`access_token` when the token is truthy, else `client_id` when the client
id is truthy, plus `client_secret` when `include_secret` is requested —
the injection is into the shared dict, not a copy. -/
theorem C3_amended_params_mutation :
    ∀ (reprF : FDict → Str) (gt : Str → Str) (api : Api) (method path : Str)
      (params : Params) (inclSecret : Bool) (sec : Str),
      api.clientSecret = some sec →
      paramsFilesTruthy params = false →
      (prepare_request reprF gt api method path params inclSecret).isSome = true →
      (prepare_request reprF gt api method path params inclSecret).map
          (fun r => r.paramsAfter) =
        some (if inclSecret && !sec.isEmpty then
                dictSet (if optTruthy api.accessToken then
                    dictSet params (pyb "access_token") (PVal.bstr (api.accessToken.getD []))
                  else if optTruthy api.clientId then
                    dictSet params (pyb "client_id") (PVal.bstr (api.clientId.getD []))
                  else params) (pyb "client_secret") (PVal.bstr sec)
              else if optTruthy api.accessToken then
                dictSet params (pyb "access_token") (PVal.bstr (api.accessToken.getD []))
              else if optTruthy api.clientId then
                dictSet params (pyb "client_id") (PVal.bstr (api.clientId.getD []))
              else params) := by
  intro reprF gt api method path params inclSecret sec hsec hf hs
  by_cases hm : method = pyb "POST"
  · cases hpb : post_body reprF params with
    | none => simp [prepare_request, hf, hm, hpb] at hs
    | some b =>
        cases hfu : full_url_with_params reprF api path params inclSecret with
        | none => simp [prepare_request, hf, hm, hpb, hfu] at hs
        | some up =>
            have h2 := full_url_with_params_snd reprF api path params inclSecret sec up hsec hfu
            simp [prepare_request, hf, hm, hpb, hfu, h2]
  · cases hfu : full_url_with_params reprF api path params inclSecret with
    | none => simp [prepare_request, hf, hm, hfu] at hs
    | some up =>
        have h2 := full_url_with_params_snd reprF api path params inclSecret sec up hsec hfu
        simp [prepare_request, hf, hm, hfu, h2]

/-- C3 witness: a concrete signed POST with a client id, no access token
and `include_secret` requested — the caller dict gains both the
`client_id` and the `client_secret` entries. -/
theorem C3_amended_params_mutation_witness :
    (prepare_request reprNil gtOctet apiCS (pyb "POST") (pyb "/x")
        [(pyb "a", PVal.bstr (pyb "1"))] true).map (fun r => r.paramsAfter) =
      some [(pyb "a", PVal.bstr (pyb "1")),
            (pyb "client_id", PVal.bstr (pyb "CID")),
            (pyb "client_secret", PVal.bstr (pyb "S"))] := by
  refine (C3_amended_params_mutation reprNil gtOctet apiCS (pyb "POST") (pyb "/x")
    [(pyb "a", PVal.bstr (pyb "1"))] true (pyb "S") rfl (by decide) (by decide)).trans ?_
  decide

/-- C4 counterexample: a multipart request built with a client secret
configured carries a `&sig=` suffix (computed over only the injected
access token), contradicting the claim that multipart URLs never carry
one. -/
theorem C4_counterexample_multipart_signed :
    (prepare_request reprNil gtOctet apiTS (pyb "POST") (pyb "/media")
        [(pyb "files", PVal.fdict [(pyb "photo", pyb "a.jpg", pyb "X")])] false).map
        (fun r => r.url) =
      some (pyb "https://api.example.com/v1/media?access_token=T" ++ pyb "&sig=" ++
        hexDigest (hmacSha256 (pyb "S") (pyb "/media|access_token=T"))) := by
  decide

/-- C4 (amended): on the multipart path the URL comes from `_full_url`
with `include_signed_request` defaulted to true, so it carries one
`&sig=` suffix (signed over only the injected credentials) exactly when a
client secret is configured, and none only when the secret is absent. -/
theorem C4_amended_multipart_signature :
    (∀ (reprF : FDict → Str) (gt : Str → Str) (api : Api) (method path : Str)
       (params : Params) (inclSecret : Bool) (sec : Str),
       api.clientSecret = some sec →
       paramsFilesTruthy params = true →
       (prepare_request reprF gt api method path params inclSecret).isSome = true →
       ∃ d, (prepare_request reprF gt api method path params inclSecret).map (fun r => r.url) =
         some (api.protocol ++ pyb "://" ++ api.host ++ api.basePath ++ path ++
           pyFmtOptStr (auth_query api false) ++ (pyb "&sig=" ++ d)))
  ∧ ∀ (reprF : FDict → Str) (gt : Str → Str) (api : Api) (method path : Str)
      (params : Params) (inclSecret : Bool),
      api.clientSecret = none →
      paramsFilesTruthy params = true →
      (prepare_request reprF gt api method path params inclSecret).isSome = true →
      (prepare_request reprF gt api method path params inclSecret).map (fun r => r.url) =
        some (api.protocol ++ pyb "://" ++ api.host ++ api.basePath ++ path ++
          pyFmtOptStr (auth_query api false)) := by
  constructor
  · intro reprF gt api method path params inclSecret sec hsec hft hs
    cases hl : dictLookup params (pyb "files") with
    | none => simp [paramsFilesTruthy, hl] at hft
    | some v =>
        cases v with
        | text s => simp [prepare_request, hft, hl] at hs
        | bstr b => simp [prepare_request, hft, hl] at hs
        | fdict fs =>
            cases hem : encode_multipart reprF gt params fs with
            | none => simp [prepare_request, hft, hl, hem] at hs
            | some bh =>
                cases hg : generate_sig reprF path
                    (if optTruthy api.accessToken then
                      dictSet [] (pyb "access_token") (.bstr (api.accessToken.getD []))
                    else if optTruthy api.clientId then
                      dictSet [] (pyb "client_id") (.bstr (api.clientId.getD []))
                    else []) sec with
                | none =>
                    simp [prepare_request, hft, hl, hem, full_url, signed_request, hsec, hg] at hs
                | some d =>
                    refine ⟨d, ?_⟩
                    simp [prepare_request, hft, hl, hem, full_url, signed_request, hsec, hg,
                      List.append_assoc]
  · intro reprF gt api method path params inclSecret hsec hft hs
    cases hl : dictLookup params (pyb "files") with
    | none => simp [paramsFilesTruthy, hl] at hft
    | some v =>
        cases v with
        | text s => simp [prepare_request, hft, hl] at hs
        | bstr b => simp [prepare_request, hft, hl] at hs
        | fdict fs =>
            cases hem : encode_multipart reprF gt params fs with
            | none => simp [prepare_request, hft, hl, hem] at hs
            | some bh =>
                simp [prepare_request, hft, hl, hem, full_url, signed_request, hsec,
                  List.append_assoc]

/-- C4 witness: the amended statement at concrete multipart requests, with
and without a configured client secret. -/
theorem C4_amended_multipart_signature_witness :
    (∃ d, (prepare_request reprNil gtOctet apiTS (pyb "POST") (pyb "/media")
        [(pyb "files", PVal.fdict [(pyb "photo", pyb "a.jpg", pyb "X")])] false).map
        (fun r => r.url) =
      some (apiTS.protocol ++ pyb "://" ++ apiTS.host ++ apiTS.basePath ++ pyb "/media" ++
        pyFmtOptStr (auth_query apiTS false) ++ (pyb "&sig=" ++ d)))
  ∧ (prepare_request reprNil gtOctet apiTok (pyb "POST") (pyb "/media")
        [(pyb "files", PVal.fdict [(pyb "photo", pyb "a.jpg", pyb "X")])] false).map
        (fun r => r.url) =
      some (apiTok.protocol ++ pyb "://" ++ apiTok.host ++ apiTok.basePath ++ pyb "/media" ++
        pyFmtOptStr (auth_query apiTok false)) :=
  ⟨C4_amended_multipart_signature.1 reprNil gtOctet apiTS (pyb "POST") (pyb "/media")
      [(pyb "files", PVal.fdict [(pyb "photo", pyb "a.jpg", pyb "X")])] false (pyb "S")
      rfl (by decide) (by decide),
   C4_amended_multipart_signature.2 reprNil gtOctet apiTok (pyb "POST") (pyb "/media")
      [(pyb "files", PVal.fdict [(pyb "photo", pyb "a.jpg", pyb "X")])] false
      rfl (by decide) (by decide)⟩

/-- C5: for every multipart encoding, the `Content-Length` header equals
the decimal rendering of the exact byte length of the assembled body. -/
theorem C5_content_length_exact :
    ∀ (reprF : FDict → Str) (gt : Str → Str) (params : Params) (files : FDict)
      (body : Str) (headers : List (Str × Str)),
      encode_multipart reprF gt params files = some (body, headers) →
      sLookup headers (pyb "Content-Length") = some (natStr body.length) := by
  intro reprF gt params files body headers h
  cases hfl : encodeFieldLines reprF params with
  | none => simp [encode_multipart, hfl] at h
  | some fl =>
      simp only [encode_multipart, hfl, Option.some.injEq, Prod.mk.injEq] at h
      obtain ⟨hb, hh⟩ := h
      rw [← hh, ← hb]
      simp [sLookup, (by decide : ¬(pyb "Content-Type" = pyb "Content-Length"))]

/-- C5 witness: the concrete two-field multipart encoding. -/
theorem C5_content_length_exact_witness :
    sLookup mpHeaders (pyb "Content-Length") = some (natStr mpBody.length) :=
  C5_content_length_exact reprNil gtOctet mpParams mpFiles mpBody mpHeaders (by decide)

/-- C6 counterexample: an unparseable token-endpoint body raises the JSON
decode error, and a 200 body missing `access_token` raises `KeyError`;
neither is the claimed authentication error. -/
theorem C6_counterexample_unparseable_body :
    exchange_for_access_token 400 none = Except.error PyExc.jsonDecodeError ∧
    exchange_for_access_token 200 (some [(pyb "user", pyb "u")]) =
      Except.error (PyExc.keyError (pyb "access_token")) :=
  ⟨rfl, rfl⟩

/-- C6 (amended): a non-200 status with a JSON-parseable body raises
`OAuth2AuthExchangeError` carrying the server `error_message` (the
HTTP-400 `bad code` example included); an unparseable body instead
propagates the JSON decode error uncaught. -/
theorem C6_amended_exchange_errors :
    (∀ (status : Nat) (obj : List (Str × Str)), status ≠ 200 →
      exchange_for_access_token status (some obj) =
        Except.error (PyExc.authExchangeError ((sLookup obj (pyb "error_message")).getD [])))
  ∧ exchange_for_access_token 400 (some [(pyb "error_message", pyb "bad code")]) =
      Except.error (PyExc.authExchangeError (pyb "bad code"))
  ∧ ∀ status : Nat, exchange_for_access_token status none =
      Except.error PyExc.jsonDecodeError := by
  refine ⟨?_, rfl, fun status => rfl⟩
  intro status obj hne
  simp only [exchange_for_access_token]
  rw [if_pos hne]

/-- C6 witness: the amended statement at a concrete non-200 response whose
body has no `error_message` field. -/
theorem C6_amended_exchange_errors_witness :
    exchange_for_access_token 400 (some [(pyb "user", pyb "u")]) =
      Except.error (PyExc.authExchangeError
        ((sLookup [(pyb "user", pyb "u")] (pyb "error_message")).getD [])) :=
  C6_amended_exchange_errors.1 400 [(pyb "user", pyb "u")] (by decide)

/-- C7: the body for the one-text-field/one-file-field multipart example
begins with the caption part framed by the fixed boundary, and every
multipart body terminates with the closing boundary line followed by
CRLF. -/
theorem C7_multipart_framing :
    (∀ (reprF : FDict → Str) (gt : Str → Str) (f fn content : Str) (body : Str)
       (headers : List (Str × Str)),
       encode_multipart reprF gt [(pyb "caption", PVal.bstr (pyb "hi"))] [(f, fn, content)] =
         some (body, headers) →
       List.IsPrefix
         (pyb "--MuL7Ip4rt80uND4rYF0o\r\nContent-Disposition: form-data; name=\"caption\"\r\n\r\nhi\r\n")
         body)
  ∧ ∀ (reprF : FDict → Str) (gt : Str → Str) (params : Params) (files : FDict)
      (body : Str) (headers : List (Str × Str)),
      encode_multipart reprF gt params files = some (body, headers) →
      List.IsSuffix (pyb "--MuL7Ip4rt80uND4rYF0o--\r\n") body := by
  constructor
  · intro reprF gt f fn content body headers h
    simp only [encode_multipart, encodeFieldLines, pvStr, Option.some.injEq,
      Prod.mk.injEq] at h
    obtain ⟨hb, hh⟩ := h
    refine ⟨pyJoin (pyb "\r\n")
      (encodeFileLines gt [(f, fn, content)] ++ [pyb "--" ++ boundary ++ pyb "--", []]), ?_⟩
    rw [← hb]
    have hP : pyb "--MuL7Ip4rt80uND4rYF0o\r\nContent-Disposition: form-data; name=\"caption\"\r\n\r\nhi\r\n" =
        (pyb "--" ++ boundary) ++ pyb "\r\n" ++
        (pyb "Content-Disposition: form-data; name=\"" ++ pyb "caption" ++ pyb "\"") ++
        pyb "\r\n" ++ pyb "\r\n" ++ pyb "hi" ++ pyb "\r\n" := by decide
    rw [hP]
    simp [pyJoin, encodeFileLines, List.append_assoc]
  · intro reprF gt params files body headers h
    cases hfl : encodeFieldLines reprF params with
    | none => simp [encode_multipart, hfl] at h
    | some fl =>
        simp only [encode_multipart, hfl, Option.some.injEq, Prod.mk.injEq] at h
        obtain ⟨hb, hh⟩ := h
        rw [← hb]
        have hE : pyb "--MuL7Ip4rt80uND4rYF0o--\r\n" =
            (pyb "--" ++ boundary ++ pyb "--") ++ pyb "\r\n" ++ ([] : Str) := by decide
        rw [hE]
        exact pyJoin_last_two (pyb "\r\n") (pyb "--" ++ boundary ++ pyb "--") []
          (fl ++ encodeFileLines gt files)

/-- C7 witness: both parts at the concrete two-field multipart encoding. -/
theorem C7_multipart_framing_witness :
    List.IsPrefix
      (pyb "--MuL7Ip4rt80uND4rYF0o\r\nContent-Disposition: form-data; name=\"caption\"\r\n\r\nhi\r\n")
      mpBody ∧
    List.IsSuffix (pyb "--MuL7Ip4rt80uND4rYF0o--\r\n") mpBody :=
  ⟨C7_multipart_framing.1 reprNil gtOctet (pyb "photo") (pyb "a.jpg") (pyb "XYZ")
      mpBody mpHeaders (by decide),
   C7_multipart_framing.2 reprNil gtOctet mpParams mpFiles mpBody mpHeaders (by decide)⟩

/-- C8: a GET request for `/tags/test` with an empty parameter dict and an
access token set (and signing disabled, as the presence of no signature
suffix presumes) produces exactly
`https://{host}{base_path}/tags/test?access_token={token}` — the empty
dict contributes an empty query segment and nothing trails the token. -/
theorem C8_get_empty_params_url :
    ∀ (reprF : FDict → Str) (gt : Str → Str) (host base tok : Str), tok ≠ [] →
      prepare_request reprF gt
        { host := host, basePath := base, accessToken := some tok }
        (pyb "GET") (pyb "/tags/test") [] false =
        some ⟨pyb "https://" ++ host ++ base ++ pyb "/tags/test?access_token=" ++ tok,
          pyb "GET", none, [], []⟩ := by
  intro reprF gt host base tok htok
  have hne : tok.isEmpty = false := by
    cases tok with
    | nil => exact absurd rfl htok
    | cons a as => rfl
  have hm : ¬ (pyb "GET" = pyb "POST") := by decide
  have h1 : pyb "https://" = pyb "https" ++ pyb "://" := by decide
  have h2 : pyb "/tags/test?access_token=" =
      pyb "/tags/test" ++ (pyb "?" ++ (pyb "access_token" ++ (pyb "=" ++ []))) := by decide
  simp [prepare_request, paramsFilesTruthy, dictLookup, full_url_with_params, signed_request,
    full_url, full_query_with_params, auth_query, optTruthy, pyFmtOptStr, hne, hm, h1, h2,
    List.append_assoc]

/-- C8 witness: the URL at a concrete host, base path and token. -/
theorem C8_get_empty_params_url_witness :
    prepare_request reprNil gtOctet
      { host := pyb "api.example.com", basePath := pyb "/v1", accessToken := some (pyb "TOKEN") }
      (pyb "GET") (pyb "/tags/test") [] false =
      some ⟨pyb "https://" ++ pyb "api.example.com" ++ pyb "/v1" ++
          pyb "/tags/test?access_token=" ++ pyb "TOKEN",
        pyb "GET", none, [], []⟩ :=
  C8_get_empty_params_url reprNil gtOctet (pyb "api.example.com") (pyb "/v1") (pyb "TOKEN")
    (by decide)

/-- C9: for a POST without files, the body is urlencoded from the caller
dict as it stands before the signing pass runs, so the injected
credential entries are absent from the body (they land only in the URL
and in the mutated dict). -/
theorem C9_post_body_before_signing :
    ∀ (reprF : FDict → Str) (gt : Str → Str) (api : Api) (path : Str) (params : Params)
      (inclSecret : Bool),
      paramsFilesTruthy params = false →
      (prepare_request reprF gt api (pyb "POST") path params inclSecret).isSome = true →
      (prepare_request reprF gt api (pyb "POST") path params inclSecret).map
        (fun r => r.body) = some (post_body reprF params) := by
  intro reprF gt api path params inclSecret hf hs
  cases hpb : post_body reprF params with
  | none => simp [prepare_request, hf, hpb] at hs
  | some b =>
      cases hfu : full_url_with_params reprF api path params inclSecret with
      | none => simp [prepare_request, hf, hpb, hfu] at hs
      | some up => simp [prepare_request, hf, hpb, hfu]

/-- C9 witness: a concrete signed POST whose body is the urlencoding of
the original one-entry dict. -/
theorem C9_post_body_before_signing_witness :
    (prepare_request reprNil gtOctet apiTS (pyb "POST") (pyb "/x")
        [(pyb "a", PVal.bstr (pyb "1"))] false).map (fun r => r.body) =
      some (post_body reprNil [(pyb "a", PVal.bstr (pyb "1"))]) :=
  C9_post_body_before_signing reprNil gtOctet apiTS (pyb "/x")
    [(pyb "a", PVal.bstr (pyb "1"))] false (by decide) (by decide)

/-- C10: with neither an access token nor a client id set, `_auth_query`
returns Python `None`, and `_full_url` splices the literal text `None`
into the URL right after the endpoint path instead of omitting the
segment. -/
theorem C10_auth_query_none_in_url :
    (∀ (host base f proto : Str) (inclSecret : Bool),
      auth_query { host := host, basePath := base, accessTokenField := f, protocol := proto }
        inclSecret = none)
  ∧ ∀ (reprF : FDict → Str) (host base path : Str),
      full_url reprF { host := host, basePath := base } path false true =
        some (pyb "https://" ++ host ++ base ++ path ++ pyb "None") := by
  constructor
  · intro host base f proto inclSecret
    rfl
  · intro reprF host base path
    have h1 : pyb "https://" = pyb "https" ++ pyb "://" := by decide
    simp [full_url, signed_request, auth_query, optTruthy, pyFmtOptStr, h1, List.append_assoc]
